import Mathlib

/-! # Around: the post, search and cluster handlers of `main.go`

A shallow embedding of `src/main.go`.

* Go strings are Lean `String`s, Go `error` values are identified with their message.
* `float64` and `float32` are type parameters `F64` and `F32`: the handlers only move
  floating point values around (parse result, classifier score, query bound), they never
  compute with them.
* Every call that leaves the process (Cloud Storage, the vision classifier, Elasticsearch)
  is recorded, in order, in a trace of `Effect`s.  What the outside world answers is given
  by an `Env`: each answer may depend on the whole history of calls made so far.
* The library functions the handlers rely on (`filepath.Ext`, `http.Error`, `Header.Set`,
  the `elastic` query builders, `SearchResult.Each`, `json.Marshal` on a slice) are
  transcribed from their Go sources; `strconv.ParseFloat` and the JSON coding of a single
  `Post` are fields of `Env`.
* Writes to standard output (`fmt.Println`, `fmt.Printf`) are not part of the model.
-/

namespace Around

/-! ## Constants and data model (`main.go` lines 22-60) -/

/-- Go `error` values, identified with their message. -/
abbrev Error := String

def POST_INDEX : String := "post"
def DISTANCE : String := "200km"
def ES_URL : String := "http://10.128.0.2:9200"
def BUCKET_NAME : String := "around-probe"

/-- The `mediaTypes` map; a Go map literal with distinct keys, looked up by key. -/
def mediaTypes : List (String × String) :=
  [ (".jpeg", "image"),
    (".jpg", "image"),
    (".gif", "image"),
    (".png", "image"),
    (".mov", "video"),
    (".mp4", "video"),
    (".avi", "video"),
    (".flv", "video"),
    (".wmv", "video") ]

structure Location (F64 : Type) where
  Lat : F64
  Lon : F64

/-- The `Post` struct; the Go field `Type` is spelled `Type_` (a reserved word in Lean). -/
structure Post (F64 F32 : Type) where
  User : String
  Message : String
  Location : Location F64
  Url : String
  Type_ : String
  Face : F32

/-- The Go zero value of `Post` (what `reflect.New(typ).Elem()` holds). -/
def Post.zero {F64 F32 : Type} [Zero F64] [Zero F32] : Post F64 F32 :=
  { User := "", Message := "", Location := { Lat := 0, Lon := 0 }, Url := "", Type_ := "", Face := 0 }

/-! ## Library: `path/filepath` -/

/-- The loop of `filepath.Ext`: `i + 1` is one more than the index being looked at, so that
`Ext.loop path 0` is the exit `i < 0`. The path separator is `/`. -/
def Ext.loop (path : List Char) : Nat → List Char
  | 0 => []
  | i + 1 =>
    if path.getD i ' ' = '/' then []
    else if path.getD i ' ' = '.' then path.drop i
    else Ext.loop path i

/-- Go `filepath.Ext`: the suffix beginning at the final dot in the final element of `path`;
empty if there is no dot. -/
def Ext (path : String) : String := ⟨Ext.loop path.data path.data.length⟩

/-! ## Library: `net/http` -/

structure FileHeader where
  Filename : String

/-- The parts of `*http.Request` the handlers read. `username` is the `"username"` claim of
the token that the JWT middleware stored in the request context under `"user"`. -/
structure Request where
  Method : String
  username : String
  /-- The parsed form: body fields first, then URL query parameters. -/
  Form : List (String × String)
  /-- The URL query parameters, `r.URL.Query()`. -/
  URLQuery : List (String × String)
  /-- The file parts of the multipart form: field name, header and content. -/
  Files : List (String × (List UInt8 × FileHeader))

/-- Go `r.FormValue(key)`: the first value for `key`, or the empty string. -/
def Request.FormValue (r : Request) (key : String) : String :=
  (r.Form.lookup key).getD ""

/-- Go `r.URL.Query().Get(key)`: the first value for `key`, or the empty string. -/
def Request.QueryGet (r : Request) (key : String) : String :=
  (r.URLQuery.lookup key).getD ""

/-- Go `r.FormFile(key)`: the first file for `key`, or `http.ErrMissingFile`. -/
def Request.FormFile (r : Request) (key : String) : Except Error (List UInt8 × FileHeader) :=
  match r.Files.lookup key with
  | some f => .ok f
  | none => .error "http: no such file"

/-- What a handler has done to its `http.ResponseWriter`. -/
structure ResponseWriter where
  header : List (String × String) := []
  /-- The status passed to `WriteHeader`, if it was called. -/
  status : Option Nat := none
  body : String := ""

def validHeaderFieldChar (c : Char) : Bool :=
  c.isAlphanum || "!#$%&*+-.^_|~".data.contains c || c = Char.ofNat 39 || c = Char.ofNat 96

def canonicalLoop : Bool → List Char → List Char
  | _, [] => []
  | upper, c :: cs =>
    (if upper then c.toUpper else c.toLower) :: canonicalLoop (c = '-') cs

/-- Go `textproto.CanonicalMIMEHeaderKey`. -/
def CanonicalMIMEHeaderKey (s : String) : String :=
  if s.data.all validHeaderFieldChar then ⟨canonicalLoop true s.data⟩ else s

/-- Go `w.Header().Del(key)`. -/
def ResponseWriter.headerDel (w : ResponseWriter) (key : String) : ResponseWriter :=
  { w with header := w.header.filter (fun kv => kv.1 != CanonicalMIMEHeaderKey key) }

/-- Go `w.Header().Set(key, value)`. -/
def ResponseWriter.headerSet (w : ResponseWriter) (key value : String) : ResponseWriter :=
  { w with header := (w.headerDel key).header ++ [(CanonicalMIMEHeaderKey key, value)] }

/-- Go `w.WriteHeader(code)`; a second call is ignored. -/
def ResponseWriter.WriteHeader (w : ResponseWriter) (code : Nat) : ResponseWriter :=
  match w.status with
  | some _ => w
  | none => { w with status := some code }

def StatusOK : Nat := 200
def StatusBadRequest : Nat := 400
def StatusInternalServerError : Nat := 500

/-- Go `w.Write(data)`: writes the header with `StatusOK` if it was not written yet. -/
def ResponseWriter.Write (w : ResponseWriter) (data : String) : ResponseWriter :=
  let w1 := w.WriteHeader StatusOK
  { w1 with body := w1.body ++ data }

/-- Go `http.Error(w, error, code)`. -/
def httpError (w : ResponseWriter) (error : String) (code : Nat) : ResponseWriter :=
  let w1 := w.headerDel "Content-Length"
  let w2 := w1.headerSet "Content-Type" "text/plain; charset=utf-8"
  let w3 := w2.headerSet "X-Content-Type-Options" "nosniff"
  let w4 := w3.WriteHeader code
  w4.Write (error ++ "\n")

/-- The status the client receives: the written one, or `200` when the handler returned
without writing. -/
def ResponseWriter.statusCode (w : ResponseWriter) : Nat := w.status.getD StatusOK

/-! ## Library: `olivere/elastic` -/

structure RangeQuery (V : Type) where
  name : String
  from_ : Option V
  to_ : Option V
  includeLower : Bool
  includeUpper : Bool

/-- Go `elastic.NewRangeQuery(name)`. -/
def NewRangeQuery {V : Type} (name : String) : RangeQuery V :=
  { name := name, from_ := none, to_ := none, includeLower := true, includeUpper := true }

/-- Go `(*RangeQuery).Gte(from)`. -/
def RangeQuery.Gte {V : Type} (q : RangeQuery V) (v : V) : RangeQuery V :=
  { q with from_ := some v, includeLower := true }

/-- Which field values a range query selects (Elasticsearch `range` semantics). -/
def RangeQuery.admits {V : Type} [LE V] [LT V] (q : RangeQuery V) (v : V) : Prop :=
  (match q.from_ with
    | none => True
    | some lo => if q.includeLower then lo ≤ v else lo < v) ∧
  (match q.to_ with
    | none => True
    | some hi => if q.includeUpper then v ≤ hi else v < hi)

structure GeoDistanceQuery (F64 : Type) where
  name : String
  distance : String
  lat : F64
  lon : F64

/-- Go `elastic.NewGeoDistanceQuery(name)`. -/
def NewGeoDistanceQuery {F64 : Type} [Zero F64] (name : String) : GeoDistanceQuery F64 :=
  { name := name, distance := "", lat := 0, lon := 0 }

def GeoDistanceQuery.Distance {F64 : Type} (q : GeoDistanceQuery F64) (d : String) :
    GeoDistanceQuery F64 := { q with distance := d }

def GeoDistanceQuery.Lat {F64 : Type} (q : GeoDistanceQuery F64) (lat : F64) :
    GeoDistanceQuery F64 := { q with lat := lat }

def GeoDistanceQuery.Lon {F64 : Type} (q : GeoDistanceQuery F64) (lon : F64) :
    GeoDistanceQuery F64 := { q with lon := lon }

/-- The `elastic.Query` values the handlers build. -/
inductive Query (F64 : Type) where
  | range (q : RangeQuery F64)
  | geoDistance (q : GeoDistanceQuery F64)

/-- A hit of a search: its `_source` document, if any. -/
structure SearchHit where
  Source : Option String

structure SearchResult where
  Hits : List SearchHit

/-! ## The outside world -/

/-- A call that leaves the process. -/
inductive Effect (F64 F32 : Type) where
  /-- `storage.NewClient(ctx)` -/
  | storageNewClient
  /-- `bucket.Attrs(ctx)` -/
  | bucketAttrs (bucket : String)
  /-- `io.Copy(wc, r)` into the writer of `object` -/
  | writerCopy (bucket object : String) (data : List UInt8)
  /-- `wc.Close()` -/
  | writerClose (bucket object : String)
  /-- `object.ACL().Set(ctx, entity, role)` -/
  | aclSet (bucket object entity role : String)
  /-- `object.Attrs(ctx)` -/
  | objectAttrs (bucket object : String)
  /-- `annotate(uri)` -/
  | annotate (uri : String)
  /-- `elastic.NewClient(elastic.SetURL(url))` -/
  | elasticNewClient (url : String)
  /-- `client.Index().Index(index).Id(id).BodyJson(body).Do(ctx)` -/
  | indexDo (index id : String) (body : Post F64 F32)
  /-- `client.Search().Index(index).Query(query).Pretty(true).Do(ctx)` -/
  | searchDo (index : String) (query : Query F64)

abbrev Trace (F64 F32 : Type) := List (Effect F64 F32)

def AllUsers : String := "allUsers"
def RoleReader : String := "READER"

/-- The library functions taken as given and the answers of the outside world. The first
argument of every answer is the history: the calls made before this one. -/
structure Env (F64 F32 : Type) where
  /-- `strconv.ParseFloat(s, 64)`: value and error. -/
  ParseFloat : String → F64 × Option Error
  /-- `json.Marshal` of one `Post`. -/
  marshalPost : Post F64 F32 → Except Error String
  /-- `json.Unmarshal` of a document into a `Post`; `none` on error. -/
  unmarshalPost : String → Option (Post F64 F32)
  /-- `uuid.New()` -/
  uuidNew : Trace F64 F32 → String
  /-- The error, if any, that the given call returns after the given history. -/
  err : Trace F64 F32 → Effect F64 F32 → Option Error
  /-- The `MediaLink` in the attributes that `object.Attrs(ctx)` returns. -/
  mediaLink : Trace F64 F32 → (bucket object : String) → String
  /-- The score that `annotate(uri)` returns. -/
  score : Trace F64 F32 → (uri : String) → F32
  /-- The result that the search returns. -/
  searchResult : Trace F64 F32 → (index : String) → Query F64 → SearchResult

variable {F64 F32 : Type}

/-! ## `main.go` -/

/-- `saveToGCS` (lines 282-314): the returned pair and the trace extended by the calls made. -/
def saveToGCS (env : Env F64 F32) (tr : Trace F64 F32) (r : List UInt8) (objectName : String) :
    (String × Option Error) × Trace F64 F32 :=
  match env.err tr .storageNewClient with
  | some err => (("", some err), tr ++ [.storageNewClient])
  | none =>
    let tr1 := tr ++ [.storageNewClient]
    match env.err tr1 (.bucketAttrs BUCKET_NAME) with
    | some err => (("", some err), tr1 ++ [.bucketAttrs BUCKET_NAME])
    | none =>
      let tr2 := tr1 ++ [.bucketAttrs BUCKET_NAME]
      match env.err tr2 (.writerCopy BUCKET_NAME objectName r) with
      | some err => (("", some err), tr2 ++ [.writerCopy BUCKET_NAME objectName r])
      | none =>
        let tr3 := tr2 ++ [.writerCopy BUCKET_NAME objectName r]
        match env.err tr3 (.writerClose BUCKET_NAME objectName) with
        | some err => (("", some err), tr3 ++ [.writerClose BUCKET_NAME objectName])
        | none =>
          let tr4 := tr3 ++ [.writerClose BUCKET_NAME objectName]
          match env.err tr4 (.aclSet BUCKET_NAME objectName AllUsers RoleReader) with
          | some err =>
            (("", some err), tr4 ++ [.aclSet BUCKET_NAME objectName AllUsers RoleReader])
          | none =>
            let tr5 := tr4 ++ [.aclSet BUCKET_NAME objectName AllUsers RoleReader]
            match env.err tr5 (.objectAttrs BUCKET_NAME objectName) with
            | some err => (("", some err), tr5 ++ [.objectAttrs BUCKET_NAME objectName])
            | none =>
              ((env.mediaLink tr5 BUCKET_NAME objectName, none),
                tr5 ++ [.objectAttrs BUCKET_NAME objectName])

/-- `saveToES` (lines 317-334), called with a `Post`. -/
def saveToES (env : Env F64 F32) (tr : Trace F64 F32) (i : Post F64 F32) (index id : String) :
    Option Error × Trace F64 F32 :=
  match env.err tr (.elasticNewClient ES_URL) with
  | some err => (some err, tr ++ [.elasticNewClient ES_URL])
  | none =>
    let tr1 := tr ++ [.elasticNewClient ES_URL]
    match env.err tr1 (.indexDo index id i) with
    | some err => (some err, tr1 ++ [.indexDo index id i])
    | none => (none, tr1 ++ [.indexDo index id i])

/-- `readFromES` (lines 253-269): the search result, or the error. -/
def readFromES (env : Env F64 F32) (tr : Trace F64 F32) (query : Query F64) (index : String) :
    Except Error SearchResult × Trace F64 F32 :=
  match env.err tr (.elasticNewClient ES_URL) with
  | some err => (.error err, tr ++ [.elasticNewClient ES_URL])
  | none =>
    let tr1 := tr ++ [.elasticNewClient ES_URL]
    match env.err tr1 (.searchDo index query) with
    | some err => (.error err, tr1 ++ [.searchDo index query])
    | none => (.ok (env.searchResult tr1 index query), tr1 ++ [.searchDo index query])

/-- Go `(*SearchResult).Each(typ)` for `typ = Post`: a hit without source gives the zero
value, a hit whose source does not decode is skipped. -/
def SearchResult.Each [Zero F64] [Zero F32] (env : Env F64 F32) (sr : SearchResult) :
    List (Post F64 F32) :=
  sr.Hits.filterMap (fun hit =>
    match hit.Source with
    | none => some Post.zero
    | some src => env.unmarshalPost src)

/-- Go `append(s, x)` on a slice that may be `nil` (`none`). -/
def sliceAppend {α : Type} (s : Option (List α)) (x : α) : Option (List α) :=
  some (s.getD [] ++ [x])

/-- `getPostFromSearchResult` (lines 271-280): `posts` starts as the `nil` slice. -/
def getPostFromSearchResult [Zero F64] [Zero F32] (env : Env F64 F32) (searchResult : SearchResult) :
    Option (List (Post F64 F32)) :=
  (searchResult.Each env).foldl sliceAppend none

/-- Go `json.Marshal` of a `[]Post`: a `nil` slice is encoded as `null`. -/
def jsonMarshal (env : Env F64 F32) : Option (List (Post F64 F32)) → Except Error String
  | none => .ok "null"
  | some posts =>
    match posts.mapM env.marshalPost with
    | .error err => .error err
    | .ok docs => .ok ("[" ++ ",".intercalate docs ++ "]")

/-- The headers every handler sets first. -/
def corsHeaders (w : ResponseWriter) (contentTypeKey : String) : ResponseWriter :=
  ((w.headerSet contentTypeKey "application/json").headerSet
    "Access-Control-Allow-Origin" "*").headerSet
    "Access-Control-Allow-Headers" "Content-Type,Authorization"

/-- Lines 136-141 of `handlerPost`: the value stored in `p.Type`. -/
def handlerPost.mediaType (filename : String) : String :=
  match mediaTypes.lookup (Ext filename) with
  | some t => t
  | none => "unknown"

/-- Modelled from the spec: `annotate` is a function of this package that is defined outside
`main.go`. The specification gives its contract as `classify(mediaReference) -> score`, a
black box whose failures are surfaced as they are. A call `annotate(uri)` is one recorded
call; the score and the error it returns are those the world answers. -/
def annotate (env : Env F64 F32) (tr : Trace F64 F32) (uri : String) :
    (F32 × Option Error) × Trace F64 F32 :=
  ((env.score tr uri, env.err tr (.annotate uri)), tr ++ [.annotate uri])

/-- Lines 152-162 of `handlerPost`: the classifier step. Gives the error response, or the
post to index. -/
def handlerPost.annotateStep (env : Env F64 F32) (w : ResponseWriter) (tr : Trace F64 F32)
    (p : Post F64 F32) (id : String) : Except ResponseWriter (Post F64 F32) × Trace F64 F32 :=
  if p.Type_ = "image" then
    let uri := "gs://" ++ BUCKET_NAME ++ "/" ++ id
    match annotate env tr uri with
    | ((_, some _), tr1) =>
      (.error (httpError w "Failed to annotate image" StatusInternalServerError), tr1)
    | ((score, none), tr1) => (.ok { p with Face := score }, tr1)
  else (.ok p, tr)

/-- `handlerPost` (lines 94-172): the response and the calls made. -/
def handlerPost [Zero F32] (env : Env F64 F32) (r : Request) : ResponseWriter × Trace F64 F32 :=
  let w := corsHeaders {} "Content-type"
  if r.Method = "OPTIONS" then (w, [])
  else
    let username := r.username
    let lat := (env.ParseFloat (r.FormValue "lat")).1
    let lon := (env.ParseFloat (r.FormValue "lon")).1
    let p : Post F64 F32 :=
      { User := username, Message := r.FormValue "message",
        Location := { Lat := lat, Lon := lon }, Url := "", Type_ := "", Face := 0 }
    match r.FormFile "image" with
    | .error _ => (httpError w "Image is not available" StatusBadRequest, [])
    | .ok (file, header) =>
      let p := { p with Type_ := handlerPost.mediaType header.Filename }
      let id := env.uuidNew []
      match saveToGCS env [] file id with
      | ((_, some _), tr) =>
        (httpError w "Failed to save image to GCS" StatusInternalServerError, tr)
      | ((mediaLink, none), tr) =>
        let p := { p with Url := mediaLink }
        match handlerPost.annotateStep env w tr p id with
        | (.error w1, tr1) => (w1, tr1)
        | (.ok p1, tr1) =>
          match saveToES env tr1 p1 POST_INDEX id with
          | (some _, tr2) =>
            (httpError w "Failed to save post to Elasticsearch" StatusInternalServerError, tr2)
          | (none, tr2) => (w, tr2)

/-- Lines 198-205 and 242-250: turn the search result into the response body. -/
def writePosts [Zero F64] [Zero F32] (env : Env F64 F32) (w : ResponseWriter)
    (searchResult : SearchResult) (failure : String) : ResponseWriter :=
  let posts := getPostFromSearchResult env searchResult
  match jsonMarshal env posts with
  | .error _ => httpError w failure StatusInternalServerError
  | .ok js => w.Write js

/-- `handlerCluster` (lines 174-206). -/
def handlerCluster [Zero F64] [Zero F32] [OfScientific F64] (env : Env F64 F32) (r : Request) :
    ResponseWriter × Trace F64 F32 :=
  let w := corsHeaders {} "Content-Type"
  if r.Method = "OPTIONS" then (w, [])
  else
    let term := r.QueryGet "term"
    let query := (NewRangeQuery term).Gte (0.9 : F64)
    match readFromES env [] (.range query) POST_INDEX with
    | (.error _, tr) =>
      (httpError w "Failed to read from Elasticsearch" StatusInternalServerError, tr)
    | (.ok searchResult, tr) =>
      (writePosts env w searchResult "Failed to parse post object", tr)

/-- `handlerSearch` (lines 208-251). -/
def handlerSearch [Zero F64] [Zero F32] (env : Env F64 F32) (r : Request) :
    ResponseWriter × Trace F64 F32 :=
  let w := corsHeaders {} "Content-Type"
  if r.Method = "OPTIONS" then (w, [])
  else
    let lat := (env.ParseFloat (r.QueryGet "lat")).1
    let lon := (env.ParseFloat (r.QueryGet "lon")).1
    let ran := if r.QueryGet "range" ≠ "" then r.QueryGet "range" ++ "km" else DISTANCE
    let query := NewGeoDistanceQuery "location"
    let query := ((query.Distance ran).Lat lat).Lon lon
    match readFromES env [] (.geoDistance query) POST_INDEX with
    | (.error _, tr) =>
      (httpError w "Failed to read post from Elasticsearch" StatusInternalServerError, tr)
    | (.ok searchResult, tr) =>
      (writePosts env w searchResult "Failed to parse posts into JSON format", tr)

/-! ## Vocabulary for the statements -/

/-- The six calls of `saveToGCS`, in the order in which the code makes them. -/
def saveToGCS.calls (r : List UInt8) (objectName : String) : Trace F64 F32 :=
  [ .storageNewClient,
    .bucketAttrs BUCKET_NAME,
    .writerCopy BUCKET_NAME objectName r,
    .writerClose BUCKET_NAME objectName,
    .aclSet BUCKET_NAME objectName AllUsers RoleReader,
    .objectAttrs BUCKET_NAME objectName ]

/-- The error, if any, of the `k`-th of these calls when the `k` calls before it were made
after the history `tr`. -/
def saveToGCS.answer (env : Env F64 F32) (tr : Trace F64 F32) (r : List UInt8)
    (objectName : String) (k : Nat) : Option Error :=
  match (saveToGCS.calls r objectName)[k]? with
  | some e => env.err (tr ++ (saveToGCS.calls r objectName).take k) e
  | none => none

/-- The `Post` that `handlerPost` holds when it reaches the index write, given the media
link and the quality score it has stored in it. -/
def handlerPost.post (env : Env F64 F32) (r : Request) (filename url : String) (face : F32) :
    Post F64 F32 :=
  { User := r.username, Message := r.FormValue "message",
    Location :=
      { Lat := (env.ParseFloat (r.FormValue "lat")).1,
        Lon := (env.ParseFloat (r.FormValue "lon")).1 },
    Url := url, Type_ := handlerPost.mediaType filename, Face := face }

/-- Position of a call in the order in which the pipeline of `handlerPost` makes them. -/
def Effect.kind : Effect F64 F32 → Nat
  | .storageNewClient => 0
  | .bucketAttrs _ => 1
  | .writerCopy _ _ _ => 2
  | .writerClose _ _ => 3
  | .aclSet _ _ _ _ => 4
  | .objectAttrs _ _ => 5
  | .annotate _ => 6
  | .elasticNewClient _ => 7
  | .indexDo _ _ _ => 8
  | .searchDo _ _ => 9

/-- The call writes the media bytes to the store. -/
def Effect.isBlobWrite : Effect F64 F32 → Bool
  | .writerCopy _ _ _ => true
  | _ => false

/-- The call is a call of the classifier. -/
def Effect.isAnnotate : Effect F64 F32 → Bool
  | .annotate _ => true
  | _ => false

/-- The call writes a document to the index. -/
def Effect.isIndexWrite : Effect F64 F32 → Bool
  | .indexDo _ _ _ => true
  | _ => false

/-- The call goes to Elasticsearch: the calls of `saveToES` and of `readFromES`. -/
def Effect.isElastic : Effect F64 F32 → Bool
  | .elasticNewClient _ => true
  | .indexDo _ _ _ => true
  | .searchDo _ _ => true
  | _ => false

/-- The extension in the words of the specification: the suffix of the name that starts at
its last dot; empty when the name has no dot. -/
def suffixFromLastDot : List Char → List Char
  | [] => []
  | c :: cs =>
    if '.' ∈ cs then suffixFromLastDot cs
    else if c = '.' then c :: cs
    else []

/-- The world that differs from `env` only in that `strconv.ParseFloat` reports no error:
it returns the same values. -/
def Env.withoutParseErrors (env : Env F64 F32) : Env F64 F32 :=
  { env with ParseFloat := fun s => ((env.ParseFloat s).1, none) }

/-! ## Sample worlds -/

/-- The value of a text of decimal digits; `none` for the empty text and for a text with
any other character. -/
def decimalValue (ds : List Char) : Option Nat :=
  if ds = [] then none
  else ds.foldl (fun acc c =>
    match acc with
    | none => none
    | some n => if c.isDigit then some (10 * n + (c.toNat - 48)) else none) (some 0)

/-- The value of an unsigned decimal numeral `digits` or `digits.digits`; `none` for any
other text. -/
def unsignedDecimal (ds : List Char) : Option Rat :=
  match ds.span (fun c => c != '.') with
  | (whole, []) =>
    match decimalValue whole with
    | some n => some (n : Rat)
    | none => none
  | (whole, _ :: frac) =>
    if whole = [] then none
    else
      match decimalValue (whole ++ frac) with
      | some n => if frac = [] then none else some (OfScientific.ofScientific n true frac.length)
      | none => none

/-- A stand-in for `strconv.ParseFloat` in the sample worlds: a decimal numeral
(`digits` or `digits.digits`, with or without a minus sign) parses to its value, taken
exactly, and every other text is answered like a malformed one, with the value `0` and a
syntax error. -/
def sampleParseFloat (s : String) : Rat × Option Error :=
  match s.data with
  | '-' :: ds =>
    match unsignedDecimal ds with
    | some v => (-v, none)
    | none => (0, some ("strconv.ParseFloat: parsing \"" ++ s ++ "\": invalid syntax"))
  | ds =>
    match unsignedDecimal ds with
    | some v => (v, none)
    | none => (0, some ("strconv.ParseFloat: parsing \"" ++ s ++ "\": invalid syntax"))

/-- A sample world: the generated id is `7d9f3e6a`, the error of a call is given by `err`
whatever the history, the classifier answers `score`, a search answers `hits`. -/
def sampleEnv (err : Effect Rat Rat → Option Error) (score : Rat) (hits : List SearchHit) :
    Env Rat Rat :=
  { ParseFloat := sampleParseFloat
    marshalPost := fun p => .ok ("<" ++ p.User ++ ">")
    unmarshalPost := fun _ => none
    uuidNew := fun _ => "7d9f3e6a"
    err := fun _ e => err e
    mediaLink := fun _ bucket object => "https://storage.googleapis.com/" ++ bucket ++ "/" ++ object
    score := fun _ _ => score
    searchResult := fun _ _ _ => { Hits := hits } }

/-- Every call succeeds. -/
def allSucceed : Effect Rat Rat → Option Error := fun _ => none

/-- Making the object public fails, every other call succeeds. -/
def aclFails : Effect Rat Rat → Option Error
  | .aclSet _ _ _ _ => some "googleapi: Error 403: Forbidden"
  | _ => none

/-- The classifier fails, every other call succeeds. -/
def annotateFails : Effect Rat Rat → Option Error
  | .annotate _ => some "vision: unavailable"
  | _ => none

/-- A create request of user `ann` with the given `lat` text and files. -/
def samplePost (lat : String) (files : List (String × (List UInt8 × FileHeader))) : Request :=
  { Method := "POST", username := "ann",
    Form := [("lat", lat), ("lon", "-122.3"), ("message", "hi")],
    URLQuery := [],
    Files := files }

/-- A read request with the given URL query. -/
def sampleGet (query : List (String × String)) : Request :=
  { Method := "GET", username := "ann", Form := query, URLQuery := query, Files := [] }

/-! ## Helper lemmas -/

theorem saveToGCS_spec (env : Env F64 F32) (tr : Trace F64 F32) (r : List UInt8)
    (objectName : String) :
    (∃ k err, k < 6 ∧ (∀ j, j < k → saveToGCS.answer env tr r objectName j = none) ∧
        saveToGCS.answer env tr r objectName k = some err ∧
        saveToGCS env tr r objectName =
          (("", some err), tr ++ (saveToGCS.calls r objectName).take (k + 1))) ∨
    ((∀ k, k < 6 → saveToGCS.answer env tr r objectName k = none) ∧
      saveToGCS env tr r objectName =
        ((env.mediaLink (tr ++ (saveToGCS.calls r objectName).take 5) BUCKET_NAME objectName,
            none), tr ++ saveToGCS.calls r objectName)) := by
  unfold saveToGCS
  dsimp only
  split
  next e h0 =>
    left
    refine ⟨0, e, by decide, ?_, ?_, ?_⟩
    · intro j hj; omega
    · simp_all [saveToGCS.answer, saveToGCS.calls]
    · simp [saveToGCS.calls]
  next h0 =>
  split
  next e h1 =>
    left
    refine ⟨1, e, by decide, ?_, ?_, ?_⟩
    · intro j hj; interval_cases j; simp_all [saveToGCS.answer, saveToGCS.calls]
    · simp_all [saveToGCS.answer, saveToGCS.calls]
    · simp [saveToGCS.calls]
  next h1 =>
  split
  next e h2 =>
    left
    refine ⟨2, e, by decide, ?_, ?_, ?_⟩
    · intro j hj; interval_cases j <;> simp_all [saveToGCS.answer, saveToGCS.calls]
    · simp_all [saveToGCS.answer, saveToGCS.calls]
    · simp [saveToGCS.calls]
  next h2 =>
  split
  next e h3 =>
    left
    refine ⟨3, e, by decide, ?_, ?_, ?_⟩
    · intro j hj; interval_cases j <;> simp_all [saveToGCS.answer, saveToGCS.calls]
    · simp_all [saveToGCS.answer, saveToGCS.calls]
    · simp [saveToGCS.calls]
  next h3 =>
  split
  next e h4 =>
    left
    refine ⟨4, e, by decide, ?_, ?_, ?_⟩
    · intro j hj; interval_cases j <;> simp_all [saveToGCS.answer, saveToGCS.calls]
    · simp_all [saveToGCS.answer, saveToGCS.calls]
    · simp [saveToGCS.calls]
  next h4 =>
  split
  next e h5 =>
    left
    refine ⟨5, e, by decide, ?_, ?_, ?_⟩
    · intro j hj; interval_cases j <;> simp_all [saveToGCS.answer, saveToGCS.calls]
    · simp_all [saveToGCS.answer, saveToGCS.calls]
    · simp [saveToGCS.calls]
  next h5 =>
  right
  refine ⟨?_, ?_⟩
  · intro j hj; interval_cases j <;> simp_all [saveToGCS.answer, saveToGCS.calls]
  · simp [saveToGCS.calls]

theorem saveToES_spec (env : Env F64 F32) (tr : Trace F64 F32) (i : Post F64 F32)
    (index id : String) :
    ((∃ err, env.err tr (.elasticNewClient ES_URL) = some err) ∧
        (saveToES env tr i index id).1 ≠ none ∧
        (saveToES env tr i index id).2 = tr ++ [.elasticNewClient ES_URL]) ∨
    (env.err tr (.elasticNewClient ES_URL) = none ∧
        (∃ err, env.err (tr ++ [.elasticNewClient ES_URL]) (.indexDo index id i) = some err) ∧
        (saveToES env tr i index id).1 ≠ none ∧
        (saveToES env tr i index id).2 = tr ++ [.elasticNewClient ES_URL, .indexDo index id i]) ∨
    (env.err tr (.elasticNewClient ES_URL) = none ∧
        env.err (tr ++ [.elasticNewClient ES_URL]) (.indexDo index id i) = none ∧
        saveToES env tr i index id =
          (none, tr ++ [.elasticNewClient ES_URL, .indexDo index id i])) := by
  unfold saveToES
  dsimp only
  split
  next e h7 => left; exact ⟨⟨e, h7⟩, by simp, rfl⟩
  next h7 =>
    right
    split
    next e h8 => left; exact ⟨h7, ⟨e, h8⟩, by simp, by simp⟩
    next h8 => right; exact ⟨h7, h8, by simp⟩

theorem handlerPost_run [Zero F32] (env : Env F64 F32) (r : Request) (file : List UInt8)
    (header : FileHeader) (hm : r.Method ≠ "OPTIONS")
    (hf : r.FormFile "image" = .ok (file, header)) :
    let w := corsHeaders {} "Content-type"
    let id := env.uuidNew []
    let calls : Trace F64 F32 := saveToGCS.calls file id
    let uri := "gs://" ++ BUCKET_NAME ++ "/" ++ id
    let image := handlerPost.mediaType header.Filename = "image"
    let tr2 := calls ++ (if image then [Effect.annotate uri] else [])
    let p := handlerPost.post env r header.Filename (env.mediaLink (calls.take 5) BUCKET_NAME id)
      (if image then env.score calls uri else 0)
    (∃ k err, k < 6 ∧ (∀ j, j < k → saveToGCS.answer env [] file id j = none) ∧
        saveToGCS.answer env [] file id k = some err ∧
        handlerPost env r =
          (httpError w "Failed to save image to GCS" StatusInternalServerError,
            calls.take (k + 1))) ∨
    ((∀ k, k < 6 → saveToGCS.answer env [] file id k = none) ∧ image ∧
        (∃ err, env.err calls (.annotate uri) = some err) ∧
        handlerPost env r =
          (httpError w "Failed to annotate image" StatusInternalServerError,
            calls ++ [.annotate uri])) ∨
    ((∀ k, k < 6 → saveToGCS.answer env [] file id k = none) ∧
        (image → env.err calls (.annotate uri) = none) ∧
        ((∃ err, env.err tr2 (.elasticNewClient ES_URL) = some err) ∧
          handlerPost env r =
            (httpError w "Failed to save post to Elasticsearch" StatusInternalServerError,
              tr2 ++ [.elasticNewClient ES_URL]) ∨
         env.err tr2 (.elasticNewClient ES_URL) = none ∧
          (∃ err, env.err (tr2 ++ [.elasticNewClient ES_URL]) (.indexDo POST_INDEX id p) =
            some err) ∧
          handlerPost env r =
            (httpError w "Failed to save post to Elasticsearch" StatusInternalServerError,
              tr2 ++ [.elasticNewClient ES_URL, .indexDo POST_INDEX id p]) ∨
         env.err tr2 (.elasticNewClient ES_URL) = none ∧
          env.err (tr2 ++ [.elasticNewClient ES_URL]) (.indexDo POST_INDEX id p) = none ∧
          handlerPost env r = (w, tr2 ++ [.elasticNewClient ES_URL, .indexDo POST_INDEX id p]))) := by
  intro w id calls uri image tr2 p
  unfold handlerPost
  simp only [hm, hf, if_false]
  rcases saveToGCS_spec env [] file (env.uuidNew []) with
    ⟨k, err, hk, hprev, hans, heq⟩ | ⟨hall, heq⟩
  · left
    refine ⟨k, err, hk, hprev, hans, ?_⟩
    rw [heq]; simp [calls, id, w]
  · right
    rw [heq]
    simp only [List.nil_append]
    have hES : ∀ (tr1 : Trace F64 F32) (p1 : Post F64 F32),
        ((∃ err, env.err tr1 (.elasticNewClient ES_URL) = some err) ∧
          (match saveToES env tr1 p1 POST_INDEX (env.uuidNew []) with
            | (some _, tr2) =>
              (httpError w "Failed to save post to Elasticsearch" StatusInternalServerError, tr2)
            | (none, tr2) => (w, tr2)) =
            (httpError w "Failed to save post to Elasticsearch" StatusInternalServerError,
              tr1 ++ [.elasticNewClient ES_URL])) ∨
        (env.err tr1 (.elasticNewClient ES_URL) = none ∧
          (∃ err, env.err (tr1 ++ [.elasticNewClient ES_URL])
            (.indexDo POST_INDEX (env.uuidNew []) p1) = some err) ∧
          (match saveToES env tr1 p1 POST_INDEX (env.uuidNew []) with
            | (some _, tr2) =>
              (httpError w "Failed to save post to Elasticsearch" StatusInternalServerError, tr2)
            | (none, tr2) => (w, tr2)) =
            (httpError w "Failed to save post to Elasticsearch" StatusInternalServerError,
              tr1 ++ [.elasticNewClient ES_URL, .indexDo POST_INDEX (env.uuidNew []) p1])) ∨
        (env.err tr1 (.elasticNewClient ES_URL) = none ∧
          env.err (tr1 ++ [.elasticNewClient ES_URL])
            (.indexDo POST_INDEX (env.uuidNew []) p1) = none ∧
          (match saveToES env tr1 p1 POST_INDEX (env.uuidNew []) with
            | (some _, tr2) =>
              (httpError w "Failed to save post to Elasticsearch" StatusInternalServerError, tr2)
            | (none, tr2) => (w, tr2)) =
            (w, tr1 ++ [.elasticNewClient ES_URL, .indexDo POST_INDEX (env.uuidNew []) p1])) := by
      intro tr1 p1
      rcases saveToES_spec env tr1 p1 POST_INDEX (env.uuidNew []) with
        ⟨h7, hne, htr⟩ | ⟨h7, h8, hne, htr⟩ | ⟨h7, h8, heq⟩
      · left
        refine ⟨h7, ?_⟩
        rcases hs : saveToES env tr1 p1 POST_INDEX (env.uuidNew []) with ⟨_ | e, t⟩
        · rw [hs] at hne; simp at hne
        · rw [hs] at htr; simp at htr; simp [htr]
      · right; left
        refine ⟨h7, h8, ?_⟩
        rcases hs : saveToES env tr1 p1 POST_INDEX (env.uuidNew []) with ⟨_ | e, t⟩
        · rw [hs] at hne; simp at hne
        · rw [hs] at htr; simp at htr; simp [htr]
      · right; right
        exact ⟨h7, h8, by rw [heq]⟩
    unfold handlerPost.annotateStep annotate
    by_cases himg : handlerPost.mediaType header.Filename = "image"
    · obtain ha | ⟨e, ha⟩ : env.err calls (Effect.annotate uri) = none ∨
          ∃ e, env.err calls (Effect.annotate uri) = some e := by
        cases env.err calls (Effect.annotate uri) <;> simp
      · right
        refine ⟨hall, fun _ => ha, ?_⟩
        have := hES (calls ++ [Effect.annotate uri])
          (handlerPost.post env r header.Filename
            (env.mediaLink (List.take 5 calls) BUCKET_NAME id) (env.score calls uri))
        simp only [calls, uri, id] at ha
        simpa only [tr2, p, image, himg, if_true, handlerPost.post, calls, uri, id, w, ha,
          List.append_assoc, List.singleton_append] using this
      · left
        simp only [calls, uri, id] at ha
        refine ⟨hall, himg, ⟨e, ha⟩, ?_⟩
        simp only [himg, if_true, ha, calls, uri, id, w]
    · right
      refine ⟨hall, fun h => absurd h himg, ?_⟩
      have := hES calls
          (handlerPost.post env r header.Filename
            (env.mediaLink (List.take 5 calls) BUCKET_NAME id) 0)
      simpa only [tr2, p, image, himg, if_false, handlerPost.post, calls, uri, id, w,
          List.append_nil] using this

theorem saveToGCS_calls_kinds (r : List UInt8) (objectName : String) :
    ∀ e ∈ (saveToGCS.calls r objectName : Trace F64 F32), e.kind < 6 := by
  intro e he
  simp only [saveToGCS.calls, List.mem_cons, List.mem_singleton, List.not_mem_nil,
    or_false] at he
  rcases he with h | h | h | h | h | h <;> subst h <;> simp [Effect.kind]

theorem saveToGCS_trace_kinds (env : Env F64 F32) (r : List UInt8) (objectName : String) :
    ∀ e ∈ (saveToGCS env [] r objectName).2, e.kind < 6 := by
  have hcalls := @saveToGCS_calls_kinds F64 F32 r objectName
  rcases saveToGCS_spec env [] r objectName with ⟨k, err, _, _, _, heq⟩ | ⟨_, heq⟩
  · intro e he
    rw [heq] at he
    simp only [List.nil_append] at he
    exact hcalls e (List.mem_of_mem_take he)
  · intro e he
    rw [heq] at he
    simp only [List.nil_append] at he
    exact hcalls e he

theorem kind_lt_six_not_later (e : Effect F64 F32) (h : e.kind < 6) :
    e.isAnnotate = false ∧ e.isElastic = false := by
  cases e <;> simp [Effect.kind, Effect.isAnnotate, Effect.isElastic] at h ⊢

theorem handlerPost_store_fails [Zero F32] (env : Env F64 F32) (r : Request) (file : List UInt8)
    (header : FileHeader) (hm : r.Method ≠ "OPTIONS")
    (hf : r.FormFile "image" = .ok (file, header))
    (hs : (saveToGCS env [] file (env.uuidNew [])).1.2 ≠ none) :
    handlerPost env r =
      (httpError (corsHeaders {} "Content-type") "Failed to save image to GCS"
        StatusInternalServerError, (saveToGCS env [] file (env.uuidNew [])).2) := by
  unfold handlerPost
  simp only [hm, hf, if_false]
  rcases h : saveToGCS env [] file (env.uuidNew []) with ⟨⟨link, _ | e⟩, tr⟩
  · rw [h] at hs; simp at hs
  · rfl

theorem handlerPost_annotate_fails [Zero F32] (env : Env F64 F32) (r : Request)
    (file : List UInt8) (header : FileHeader) (hm : r.Method ≠ "OPTIONS")
    (hf : r.FormFile "image" = .ok (file, header))
    (hs : (saveToGCS env [] file (env.uuidNew [])).1.2 = none)
    (himg : handlerPost.mediaType header.Filename = "image")
    (ha : env.err (saveToGCS env [] file (env.uuidNew [])).2
      (.annotate ("gs://" ++ BUCKET_NAME ++ "/" ++ env.uuidNew [])) ≠ none) :
    handlerPost env r =
      (httpError (corsHeaders {} "Content-type") "Failed to annotate image"
        StatusInternalServerError,
        (saveToGCS env [] file (env.uuidNew [])).2 ++
          [.annotate ("gs://" ++ BUCKET_NAME ++ "/" ++ env.uuidNew [])]) := by
  unfold handlerPost
  simp only [hm, hf, if_false]
  rcases h : saveToGCS env [] file (env.uuidNew []) with ⟨⟨link, _ | e⟩, tr⟩
  · rw [h] at ha
    simp only [handlerPost.annotateStep, annotate, himg, if_true]
    rcases h6 : env.err tr (Effect.annotate ("gs://" ++ BUCKET_NAME ++ "/" ++ env.uuidNew []))
      with _ | e
    · rw [h6] at ha; simp at ha
    · rfl
  · rw [h] at hs; simp at hs

theorem httpError_statusCode (w : ResponseWriter) (msg : String) (code : Nat)
    (hw : w.status = none) : (httpError w msg code).statusCode = code := by
  simp [httpError, ResponseWriter.statusCode, ResponseWriter.Write, ResponseWriter.WriteHeader,
    ResponseWriter.headerSet, ResponseWriter.headerDel, hw]

theorem httpError_body (w : ResponseWriter) (msg : String) (code : Nat)
    (hw : w.body = "") : (httpError w msg code).body = msg ++ "\n" := by
  simp only [httpError, ResponseWriter.Write, ResponseWriter.WriteHeader,
    ResponseWriter.headerSet, ResponseWriter.headerDel]
  split <;> split <;> simp_all

theorem corsHeaders_status (key : String) : (corsHeaders {} key).status = none := rfl

theorem corsHeaders_body (key : String) : (corsHeaders {} key).body = "" := rfl

theorem handlerPost_trace_increasing [Zero F32] (env : Env F64 F32) (r : Request) :
    ((handlerPost env r).2.map Effect.kind).Pairwise (· < ·) := by
  by_cases hm : r.Method = "OPTIONS"
  · simp [handlerPost, hm]
  rcases hf : r.FormFile "image" with e | ⟨file, header⟩
  · simp [handlerPost, hm, hf]
  have hrun := handlerPost_run env r file header hm hf
  simp only at hrun
  rcases hrun with ⟨k, err, hk, _, _, heq⟩ | ⟨_, _, _, heq⟩ | ⟨_, _, ⟨_, heq⟩ | ⟨_, _, heq⟩ | ⟨_, _, heq⟩⟩
  · rw [heq]
    interval_cases k <;> simp [saveToGCS.calls, Effect.kind]
  all_goals
    rw [heq]
    by_cases himg : handlerPost.mediaType header.Filename = "image" <;>
      simp [saveToGCS.calls, Effect.kind, himg]

theorem saveToGCS_ok_iff (env : Env F64 F32) (tr : Trace F64 F32) (r : List UInt8)
    (objectName : String) :
    (saveToGCS env tr r objectName).1.2 = none ↔
      ∀ k, k < 6 → saveToGCS.answer env tr r objectName k = none := by
  rcases saveToGCS_spec env tr r objectName with ⟨k, err, hk, _, hans, heq⟩ | ⟨hall, heq⟩
  · constructor
    · intro h; rw [heq] at h; simp at h
    · intro h; rw [h k hk] at hans; simp at hans
  · constructor
    · intro _; exact hall
    · intro _; rw [heq]

theorem indexDo_not_mem_calls (r : List UInt8) (objectName index id : String)
    (body : Post F64 F32) (n : Nat) :
    Effect.indexDo index id body ∉ (saveToGCS.calls r objectName : Trace F64 F32).take n := by
  intro h
  have := saveToGCS_calls_kinds r objectName _ (List.mem_of_mem_take h)
  simp [Effect.kind] at this

theorem readFromES_trace (env : Env F64 F32) (tr : Trace F64 F32) (query : Query F64)
    (index : String) :
    (readFromES env tr query index).2 =
      tr ++ .elasticNewClient ES_URL ::
        (if env.err tr (.elasticNewClient ES_URL) = none then [.searchDo index query]
          else []) := by
  unfold readFromES
  cases h7 : env.err tr (Effect.elasticNewClient ES_URL) with
  | some e => simp
  | none =>
    cases h9 : env.err (tr ++ [Effect.elasticNewClient ES_URL]) (Effect.searchDo index query)
      <;> simp [h9]

theorem handlerSearch_run [Zero F64] [Zero F32] (env : Env F64 F32) (r : Request)
    (hm : r.Method ≠ "OPTIONS") :
    let distance :=
      match r.URLQuery.lookup "range" with
      | none => "200km"
      | some v => if v = "" then "200km" else v ++ "km"
    let query : Query F64 := .geoDistance
      { name := "location", distance := distance,
        lat := (env.ParseFloat (r.QueryGet "lat")).1,
        lon := (env.ParseFloat (r.QueryGet "lon")).1 }
    (handlerSearch env r).2 =
      .elasticNewClient ES_URL ::
        (if env.err [] (.elasticNewClient ES_URL) = none then [.searchDo POST_INDEX query]
          else []) := by
  intro distance query
  have hd : (if r.QueryGet "range" ≠ "" then r.QueryGet "range" ++ "km" else DISTANCE) =
      distance := by
    simp only [distance, Request.QueryGet, DISTANCE]
    cases r.URLQuery.lookup "range" with
    | none => simp
    | some v => by_cases hv : v = "" <;> simp [hv]
  have ht : (handlerSearch env r).2 = (readFromES env [] query POST_INDEX).2 := by
    unfold handlerSearch
    simp only [hm, if_false, hd, NewGeoDistanceQuery, GeoDistanceQuery.Distance,
      GeoDistanceQuery.Lat, GeoDistanceQuery.Lon]
    split <;> simp_all [query]
  rw [ht, readFromES_trace]
  simp

theorem handlerCluster_run [Zero F64] [Zero F32] [OfScientific F64]
    (env : Env F64 F32) (r : Request) (hm : r.Method ≠ "OPTIONS") :
    let q : RangeQuery F64 :=
      { name := r.QueryGet "term", from_ := some 0.9, to_ := none,
        includeLower := true, includeUpper := true }
    (handlerCluster env r).2 =
      .elasticNewClient ES_URL ::
        (if env.err [] (.elasticNewClient ES_URL) = none then [.searchDo POST_INDEX (.range q)]
          else []) := by
  intro q
  have ht : (handlerCluster env r).2 = (readFromES env [] (.range q) POST_INDEX).2 := by
    unfold handlerCluster
    simp only [hm, if_false, NewRangeQuery, RangeQuery.Gte]
    split <;> simp_all [q]
  rw [ht, readFromES_trace]
  simp

theorem suffixFromLastDot_cons (c : Char) (cs : List Char) :
    suffixFromLastDot (c :: cs) =
      if '.' ∈ cs then suffixFromLastDot cs else if c = '.' then c :: cs else [] := rfl

theorem suffixFromLastDot_eq_nil_iff (l : List Char) :
    suffixFromLastDot l = [] ↔ '.' ∉ l := by
  induction l with
  | nil => simp [suffixFromLastDot]
  | cons c cs ih =>
    simp only [suffixFromLastDot, List.mem_cons, not_or]
    by_cases h : '.' ∈ cs
    · simp [h, ih]
    · by_cases hc : c = '.'
      · simp [h, hc]
      · simp [h, hc, Ne.symm hc]

theorem suffixFromLastDot_append_dot (l : List Char) :
    suffixFromLastDot (l ++ ['.']) = ['.'] := by
  induction l with
  | nil => simp [suffixFromLastDot]
  | cons c cs ih => simp [suffixFromLastDot, ih]

theorem suffixFromLastDot_append_other (l : List Char) (c : Char) (hc : c ≠ '.') :
    suffixFromLastDot (l ++ [c]) =
      if suffixFromLastDot l = [] then [] else suffixFromLastDot l ++ [c] := by
  induction l with
  | nil => simp [suffixFromLastDot, hc]
  | cons d ds ih =>
    rw [List.cons_append, suffixFromLastDot_cons, suffixFromLastDot_cons]
    simp only [List.mem_append, List.mem_singleton, Ne.symm hc, or_false]
    by_cases h : '.' ∈ ds
    · simp only [h, if_true, ih]
    · by_cases hd : d = '.'
      · simp [h, hd]
      · simp [h, hd]

theorem Ext_loop_step (pre post : List Char) (c : Char) :
    Ext.loop (pre ++ c :: post) (pre.length + 1) =
      if c = '/' then [] else if c = '.' then c :: post
      else Ext.loop (pre ++ c :: post) pre.length := by
  have h : (pre ++ c :: post)[pre.length]? = some c := by
    rw [List.getElem?_append_right (Nat.le_refl _)]; simp
  simp only [Ext.loop, List.getD_eq_getElem?_getD, h, Option.getD_some, List.drop_left]

theorem Ext_loop_eq (pre : List Char) :
    ∀ post : List Char, '.' ∉ post → '/' ∉ post →
      Ext.loop (pre ++ post) pre.length =
        if suffixFromLastDot pre = [] then []
        else if '/' ∈ suffixFromLastDot pre then []
        else suffixFromLastDot pre ++ post := by
  induction pre using List.reverseRecOn with
  | nil => intro post _ _; simp [Ext.loop, suffixFromLastDot]
  | append_singleton pre c ih =>
    intro post hdot hslash
    have hstep := Ext_loop_step pre post c
    simp only [List.append_assoc, List.singleton_append, List.length_append,
      List.length_singleton] at hstep ⊢
    rw [hstep]
    by_cases h1 : c = '/'
    · subst h1
      rw [suffixFromLastDot_append_other pre '/' (by decide)]
      by_cases hs : suffixFromLastDot pre = [] <;> simp [hs]
    · by_cases h2 : c = '.'
      · subst h2
        rw [suffixFromLastDot_append_dot]
        simp
      · rw [suffixFromLastDot_append_other pre c h2]
        simp only [h1, h2, if_false]
        have := ih (c :: post) (by simp [hdot, Ne.symm h2]) (by simp [hslash, Ne.symm h1])
        rw [this]
        by_cases hs : suffixFromLastDot pre = []
        · simp [hs]
        · simp [hs, Ne.symm h1]

theorem Ext_eq (filename : String) :
    Ext filename =
      if '/' ∈ suffixFromLastDot filename.data then ""
      else ⟨suffixFromLastDot filename.data⟩ := by
  have := Ext_loop_eq filename.data [] (by simp) (by simp)
  simp only [List.append_nil] at this
  unfold Ext
  rw [this]
  by_cases hs : suffixFromLastDot filename.data = []
  · simp [hs]
  · by_cases h : '/' ∈ suffixFromLastDot filename.data <;> simp [hs, h]

theorem handlerPost_indexed [Zero F32] (env : Env F64 F32) (r : Request)
    (file : List UInt8) (header : FileHeader)
    (hf : r.FormFile "image" = .ok (file, header)) :
    ∀ index id body, Effect.indexDo index id body ∈ (handlerPost env r).2 →
      index = POST_INDEX ∧ id = env.uuidNew [] ∧
      ∃ url face, body = handlerPost.post env r header.Filename url face := by
  intro index id body hmem
  by_cases hm : r.Method = "OPTIONS"
  · simp [handlerPost, hm] at hmem
  have hrun := handlerPost_run env r file header hm hf
  simp only at hrun
  have hidx : ∀ (l : Trace F64 F32), Effect.indexDo index id body ∈
      saveToGCS.calls file (env.uuidNew []) ++ l → Effect.indexDo index id body ∈ l := by
    intro l h
    rcases List.mem_append.1 h with h | h
    · have := saveToGCS_calls_kinds file _ _ h
      simp [Effect.kind] at this
    · exact h
  rcases hrun with ⟨k, err, hk, _, _, heq⟩ | ⟨_, _, _, heq⟩ |
    ⟨_, _, ⟨_, heq⟩ | ⟨_, _, heq⟩ | ⟨_, _, heq⟩⟩
  · rw [heq] at hmem
    exact absurd hmem (indexDo_not_mem_calls file _ index id body _)
  · rw [heq] at hmem
    have := hidx _ hmem
    simp at this
  · rw [heq, List.append_assoc] at hmem
    have := hidx _ hmem
    by_cases himg : handlerPost.mediaType header.Filename = "image" <;> simp [himg] at this
  all_goals
    rw [heq, List.append_assoc] at hmem
    have := hidx _ hmem
    by_cases himg : handlerPost.mediaType header.Filename = "image" <;>
      simp [himg] at this <;>
      exact ⟨this.1, this.2.1, _, _, this.2.2⟩

theorem Write_statusCode (w : ResponseWriter) (data : String) (hw : w.status = none) :
    (w.Write data).statusCode = 200 := by
  simp [ResponseWriter.Write, ResponseWriter.WriteHeader, ResponseWriter.statusCode, hw,
    StatusOK]

theorem handlerSearch_status [Zero F64] [Zero F32] (env : Env F64 F32) (r : Request) :
    (handlerSearch env r).1.statusCode = 200 ∨ (handlerSearch env r).1.statusCode = 500 := by
  unfold handlerSearch
  by_cases hm : r.Method = "OPTIONS"
  · left; simp only [hm, if_true]; rfl
  simp only [hm, if_false]
  split
  · right; exact httpError_statusCode _ _ _ (corsHeaders_status _)
  · unfold writePosts
    dsimp only
    split
    · right; exact httpError_statusCode _ _ _ (corsHeaders_status _)
    · left; exact Write_statusCode _ _ (corsHeaders_status _)

theorem handlerPost_status [Zero F32] (env : Env F64 F32) (r : Request)
    (file : List UInt8) (header : FileHeader) (hm : r.Method ≠ "OPTIONS")
    (hf : r.FormFile "image" = .ok (file, header)) :
    ((handlerPost env r).1.statusCode = 200 ∨ (handlerPost env r).1.statusCode = 500) ∧
    (handlerPost env r).2 ≠ [] := by
  have hrun := handlerPost_run env r file header hm hf
  simp only at hrun
  have h500 : ∀ msg, (httpError (corsHeaders {} "Content-type") msg
      StatusInternalServerError).statusCode = 500 :=
    fun msg => httpError_statusCode _ _ _ (corsHeaders_status _)
  rcases hrun with ⟨k, err, hk, _, _, heq⟩ | ⟨_, _, _, heq⟩ |
    ⟨_, _, ⟨_, heq⟩ | ⟨_, _, heq⟩ | ⟨_, _, heq⟩⟩
  · rw [heq]
    refine ⟨Or.inr (h500 _), ?_⟩
    simp [saveToGCS.calls]
  · rw [heq]
    exact ⟨Or.inr (h500 _), by simp⟩
  · rw [heq]
    exact ⟨Or.inr (h500 _), by simp⟩
  · rw [heq]
    exact ⟨Or.inr (h500 _), by simp⟩
  · rw [heq]
    exact ⟨Or.inl rfl, by simp⟩

/-! ## The claims -/

/-- C1. For every uploaded file name, with its extension taken as the suffix from the last
dot (compared as it is, case-sensitively): every `Post` that `handlerPost` passes to the index
write has as `Type` the category computed from the name; that category is `image` when the
extension is one of `.jpeg`, `.jpg`, `.gif`, `.png`, `video` when it is one of `.mov`,
`.mp4`, `.avi`, `.flv`, `.wmv`, and `unknown` for every other extension, in particular for
a name without a dot. -/
theorem handlerPost_mediaType_table [Zero F32] (env : Env F64 F32) (r : Request)
    (file : List UInt8) (header : FileHeader)
    (hf : r.FormFile "image" = .ok (file, header)) :
    let ext : String := ⟨suffixFromLastDot header.Filename.data⟩
    (∀ index id body, Effect.indexDo index id body ∈ (handlerPost env r).2 →
      body.Type_ = handlerPost.mediaType header.Filename) ∧
    (ext ∈ [".jpeg", ".jpg", ".gif", ".png"] →
      handlerPost.mediaType header.Filename = "image") ∧
    (ext ∈ [".mov", ".mp4", ".avi", ".flv", ".wmv"] →
      handlerPost.mediaType header.Filename = "video") ∧
    (ext ∉ [".jpeg", ".jpg", ".gif", ".png", ".mov", ".mp4", ".avi", ".flv", ".wmv"] →
      handlerPost.mediaType header.Filename = "unknown") ∧
    ('.' ∉ header.Filename.data → handlerPost.mediaType header.Filename = "unknown") := by
  intro ext
  have hpost : ∀ index id body, Effect.indexDo index id body ∈ (handlerPost env r).2 →
      body.Type_ = handlerPost.mediaType header.Filename := by
    intro index id body hmem
    obtain ⟨_, _, url, face, hb⟩ := handlerPost_indexed env r file header hf index id body hmem
    rw [hb]; rfl
  suffices main : (ext ∈ [".jpeg", ".jpg", ".gif", ".png"] →
        handlerPost.mediaType header.Filename = "image") ∧
      (ext ∈ [".mov", ".mp4", ".avi", ".flv", ".wmv"] →
        handlerPost.mediaType header.Filename = "video") ∧
      (ext ∉ [".jpeg", ".jpg", ".gif", ".png", ".mov", ".mp4", ".avi", ".flv", ".wmv"] →
        handlerPost.mediaType header.Filename = "unknown") by
    refine ⟨hpost, main.1, main.2.1, main.2.2, fun hdot => main.2.2 ?_⟩
    have hnil := (suffixFromLastDot_eq_nil_iff header.Filename.data).2 hdot
    have hext : ext = "" := by simp only [ext, hnil]
    rw [hext]
    decide
  have hE := Ext_eq header.Filename
  by_cases hslash : '/' ∈ suffixFromLastDot header.Filename.data
  · have hne : ∀ s : String, '/' ∉ s.data → ext ≠ s := by
      intro s hs h
      apply hs
      rw [← h]
      exact hslash
    rw [if_pos hslash] at hE
    have hu : handlerPost.mediaType header.Filename = "unknown" := by
      unfold handlerPost.mediaType
      rw [hE]
      rfl
    refine ⟨?_, ?_, fun _ => hu⟩
    · intro h
      simp only [List.mem_cons, List.mem_singleton, List.not_mem_nil, or_false] at h
      rcases h with h | h | h | h <;> exact absurd h (hne _ (by decide))
    · intro h
      simp only [List.mem_cons, List.mem_singleton, List.not_mem_nil, or_false] at h
      rcases h with h | h | h | h | h <;> exact absurd h (hne _ (by decide))
  · rw [if_neg hslash] at hE
    have hE' : Ext header.Filename = ext := hE
    unfold handlerPost.mediaType
    rw [hE']
    refine ⟨?_, ?_, ?_⟩
    · intro h
      simp only [List.mem_cons, List.mem_singleton, List.not_mem_nil, or_false] at h
      rcases h with h | h | h | h <;> rw [h] <;> rfl
    · intro h
      simp only [List.mem_cons, List.mem_singleton, List.not_mem_nil, or_false] at h
      rcases h with h | h | h | h | h <;> rw [h] <;> rfl
    · intro h
      simp only [List.mem_cons, List.mem_singleton, List.not_mem_nil, or_false, not_or] at h
      obtain ⟨h1, h2, h3, h4, h5, h6, h7, h8, h9⟩ := h
      simp only [mediaTypes, List.lookup, beq_eq_false_iff_ne.2 h1, beq_eq_false_iff_ne.2 h2,
        beq_eq_false_iff_ne.2 h3, beq_eq_false_iff_ne.2 h4, beq_eq_false_iff_ne.2 h5,
        beq_eq_false_iff_ne.2 h6, beq_eq_false_iff_ne.2 h7, beq_eq_false_iff_ne.2 h8,
        beq_eq_false_iff_ne.2 h9]

/-- Witness of C1: `cat.png` is an image, `clip.mp4` a video, `cat.PNG` and `notes.txt`
are unknown. -/
theorem handlerPost_mediaType_table_witness :
    (samplePost "47.6" [("image", ([1, 2], ⟨"cat.png"⟩))]).FormFile "image" =
      .ok ([1, 2], ⟨"cat.png"⟩) ∧
    handlerPost.mediaType "cat.png" = "image" ∧
    handlerPost.mediaType "clip.mp4" = "video" ∧
    handlerPost.mediaType "cat.PNG" = "unknown" ∧
    handlerPost.mediaType "notes.txt" = "unknown" :=
  ⟨rfl,
    (handlerPost_mediaType_table (sampleEnv allSucceed 0.95 [])
      (samplePost "47.6" [("image", ([1, 2], ⟨"cat.png"⟩))]) [1, 2] ⟨"cat.png"⟩ rfl).2.1
      (by decide),
    (handlerPost_mediaType_table (sampleEnv allSucceed 0.95 [])
      (samplePost "47.6" [("image", ([1, 2], ⟨"clip.mp4"⟩))]) [1, 2] ⟨"clip.mp4"⟩ rfl).2.2.1
      (by decide),
    (handlerPost_mediaType_table (sampleEnv allSucceed 0.95 [])
      (samplePost "47.6" [("image", ([1, 2], ⟨"cat.PNG"⟩))]) [1, 2] ⟨"cat.PNG"⟩ rfl).2.2.2.1
      (by decide),
    (handlerPost_mediaType_table (sampleEnv allSucceed 0.95 [])
      (samplePost "47.6" [("image", ([1, 2], ⟨"notes.txt"⟩))]) [1, 2] ⟨"notes.txt"⟩ rfl).2.2.2.1
      (by decide)⟩

/-- C2. `handlerPost` stops at the first failing adapter. For a request that is not a
pre-flight and carries the file `image`: if `saveToGCS` fails, the calls made are those of
`saveToGCS` alone (no classifier call, no call to Elasticsearch) and the status is 500; if the
category is `image` and `annotate` fails, the calls made are those of `saveToGCS` followed by
the one `annotate` call (no call to Elasticsearch) and the status is 500; and in every run no
kind of call is made more than once. -/
theorem handlerPost_short_circuits [Zero F32] (env : Env F64 F32) (r : Request)
    (file : List UInt8) (header : FileHeader) (hm : r.Method ≠ "OPTIONS")
    (hf : r.FormFile "image" = .ok (file, header)) :
    let id := env.uuidNew []
    let store := saveToGCS env [] file id
    let uri := "gs://" ++ BUCKET_NAME ++ "/" ++ id
    let out := handlerPost env r
    (store.1.2 ≠ none →
      out.2 = store.2 ∧ (∀ e ∈ out.2, e.isAnnotate = false ∧ e.isElastic = false) ∧
      out.1.statusCode = 500) ∧
    (store.1.2 = none → handlerPost.mediaType header.Filename = "image" →
      env.err store.2 (.annotate uri) ≠ none →
      out.2 = store.2 ++ [.annotate uri] ∧ (∀ e ∈ out.2, e.isElastic = false) ∧
      out.1.statusCode = 500) ∧
    (∀ k, (out.2.map Effect.kind).count k ≤ 1) := by
  intro id store uri out
  refine ⟨?_, ?_, ?_⟩
  · intro hs
    have h := handlerPost_store_fails env r file header hm hf hs
    refine ⟨by rw [show out = _ from h], ?_, ?_⟩
    · intro e he
      rw [show out = _ from h] at he
      exact kind_lt_six_not_later e (saveToGCS_trace_kinds env file _ e he)
    · rw [show out = _ from h]
      exact httpError_statusCode _ _ _ (corsHeaders_status _)
  · intro hs himg ha
    have h := handlerPost_annotate_fails env r file header hm hf hs himg ha
    refine ⟨by rw [show out = _ from h], ?_, ?_⟩
    · intro e he
      rw [show out = _ from h] at he
      rcases List.mem_append.1 he with he | he
      · exact (kind_lt_six_not_later e (saveToGCS_trace_kinds env file _ e he)).2
      · rw [List.mem_singleton.1 he]; rfl
    · rw [show out = _ from h]
      exact httpError_statusCode _ _ _ (corsHeaders_status _)
  · intro k
    have hp := handlerPost_trace_increasing env r
    have hn : ((handlerPost env r).2.map Effect.kind).Nodup :=
      List.Pairwise.imp (fun h => Nat.ne_of_lt h) hp
    exact List.nodup_iff_count_le_one.1 hn k

/-- Witness of C2: when making the object public fails the run ends after the five store
calls with status 500; when the classifier fails on `cat.png` the run ends after the six
store calls and the classifier call with status 500. -/
theorem handlerPost_short_circuits_witness :
    ((saveToGCS (sampleEnv aclFails 0.95 []) [] [1, 2] "7d9f3e6a").1.2 ≠ none ∧
      (handlerPost (sampleEnv aclFails 0.95 [])
          (samplePost "47.6" [("image", ([1, 2], ⟨"cat.png"⟩))])).2 =
        [.storageNewClient, .bucketAttrs "around-probe",
          .writerCopy "around-probe" "7d9f3e6a" [1, 2],
          .writerClose "around-probe" "7d9f3e6a",
          .aclSet "around-probe" "7d9f3e6a" "allUsers" "READER"] ∧
      (handlerPost (sampleEnv aclFails 0.95 [])
          (samplePost "47.6" [("image", ([1, 2], ⟨"cat.png"⟩))])).1.statusCode = 500) ∧
    ((saveToGCS (sampleEnv annotateFails 0.95 []) [] [1, 2] "7d9f3e6a").1.2 = none ∧
      handlerPost.mediaType "cat.png" = "image" ∧
      (handlerPost (sampleEnv annotateFails 0.95 [])
          (samplePost "47.6" [("image", ([1, 2], ⟨"cat.png"⟩))])).2 =
        [.storageNewClient, .bucketAttrs "around-probe",
          .writerCopy "around-probe" "7d9f3e6a" [1, 2],
          .writerClose "around-probe" "7d9f3e6a",
          .aclSet "around-probe" "7d9f3e6a" "allUsers" "READER",
          .objectAttrs "around-probe" "7d9f3e6a",
          .annotate "gs://around-probe/7d9f3e6a"] ∧
      (handlerPost (sampleEnv annotateFails 0.95 [])
          (samplePost "47.6" [("image", ([1, 2], ⟨"cat.png"⟩))])).1.statusCode = 500) :=
  ⟨⟨by decide,
      ((handlerPost_short_circuits (sampleEnv aclFails 0.95 [])
        (samplePost "47.6" [("image", ([1, 2], ⟨"cat.png"⟩))]) [1, 2] ⟨"cat.png"⟩
        (by decide) rfl).1 (by decide)).1,
      ((handlerPost_short_circuits (sampleEnv aclFails 0.95 [])
        (samplePost "47.6" [("image", ([1, 2], ⟨"cat.png"⟩))]) [1, 2] ⟨"cat.png"⟩
        (by decide) rfl).1 (by decide)).2.2⟩,
    ⟨by rfl, by decide,
      ((handlerPost_short_circuits (sampleEnv annotateFails 0.95 [])
        (samplePost "47.6" [("image", ([1, 2], ⟨"cat.png"⟩))]) [1, 2] ⟨"cat.png"⟩
        (by decide) rfl).2.1 (by rfl) (by decide) (by decide)).1,
      ((handlerPost_short_circuits (sampleEnv annotateFails 0.95 [])
        (samplePost "47.6" [("image", ([1, 2], ⟨"cat.png"⟩))]) [1, 2] ⟨"cat.png"⟩
        (by decide) rfl).2.1 (by rfl) (by decide) (by decide)).2.2⟩⟩

/-- C3. For a request that is not a pre-flight and carries a file `image` whose media
category is not `image`: `handlerPost` makes no classifier call, every `Post` it passes to
the index write has `Face = 0`, and when the store and the Elasticsearch client succeed the
index write is made with the post built from the request, the media link and `Face = 0`. -/
theorem handlerPost_not_image [Zero F32] (env : Env F64 F32) (r : Request)
    (file : List UInt8) (header : FileHeader) (hm : r.Method ≠ "OPTIONS")
    (hf : r.FormFile "image" = .ok (file, header))
    (ht : handlerPost.mediaType header.Filename ≠ "image") :
    let id := env.uuidNew []
    let store := saveToGCS env [] file id
    (∀ e ∈ (handlerPost env r).2, e.isAnnotate = false) ∧
    (∀ index id body, Effect.indexDo index id body ∈ (handlerPost env r).2 → body.Face = 0) ∧
    (store.1.2 = none → env.err store.2 (.elasticNewClient ES_URL) = none →
      Effect.indexDo POST_INDEX id (handlerPost.post env r header.Filename store.1.1 0) ∈
        (handlerPost env r).2) := by
  intro id store
  have hrun := handlerPost_run env r file header hm hf
  simp only [ht, if_false, List.append_nil, false_and, and_false, false_or, false_implies,
    true_and] at hrun
  have hspec := saveToGCS_spec env [] file (env.uuidNew [])
  rcases hrun with ⟨k, err, hk, _, hans, heq⟩ | ⟨hall, hcase⟩
  · rw [heq]
    refine ⟨?_, ?_, ?_⟩
    · intro e he
      exact (kind_lt_six_not_later e (saveToGCS_calls_kinds file _ e (List.mem_of_mem_take he))).1
    · intro index id' body hmem
      exact absurd hmem (indexDo_not_mem_calls file _ index id' body _)
    · intro hs
      rw [(saveToGCS_ok_iff env [] file (env.uuidNew [])).1 hs k hk] at hans
      simp at hans
  · have hstore : store = ((env.mediaLink ((saveToGCS.calls file id).take 5) BUCKET_NAME id,
        none), saveToGCS.calls file id) := by
      rcases hspec with ⟨k, err, hk, _, hans, _⟩ | ⟨_, heq⟩
      · rw [hall k hk] at hans; simp at hans
      · simpa using heq
    have hmem6 : ∀ e ∈ (saveToGCS.calls file (env.uuidNew []) : Trace F64 F32),
        e.isAnnotate = false := fun e he =>
      (kind_lt_six_not_later e (saveToGCS_calls_kinds file _ e he)).1
    have hidx : ∀ index id' (body : Post F64 F32),
        Effect.indexDo index id' body ∉
          (saveToGCS.calls file (env.uuidNew []) : Trace F64 F32) := by
      intro index id' body h
      have := saveToGCS_calls_kinds file _ _ h
      simp [Effect.kind] at this
    rcases hcase with ⟨⟨e7, h7⟩, heq⟩ | ⟨h7, _, heq⟩ | ⟨h7, _, heq⟩
    · rw [heq]
      refine ⟨?_, ?_, ?_⟩
      · intro e he
        rcases List.mem_append.1 he with he | he
        · exact hmem6 e he
        · rw [List.mem_singleton.1 he]; rfl
      · intro index id' body hmem
        rcases List.mem_append.1 hmem with he | he
        · exact absurd he (hidx index id' body)
        · simp at he
      · intro _ h
        rw [hstore] at h
        simp only [id] at h
        rw [h] at h7; simp at h7
    all_goals
      rw [heq]
      refine ⟨?_, ?_, ?_⟩
      · intro e he
        rcases List.mem_append.1 he with he | he
        · exact hmem6 e he
        · simp only [List.mem_cons, List.mem_singleton, List.not_mem_nil, or_false] at he
          rcases he with he | he <;> rw [he] <;> rfl
      · intro index id' body hmem
        rcases List.mem_append.1 hmem with he | he
        · exact absurd he (hidx index id' body)
        · simp only [List.mem_cons, List.mem_singleton, List.not_mem_nil, or_false,
            false_or, reduceCtorEq] at he
          cases he
          rfl
      · intro _ _
        rw [hstore]
        simp

/-- Witness of C3: a create request with `notes.txt` indexes a post of category `unknown`
with `Face = 0`. -/
theorem handlerPost_not_image_witness :
    handlerPost.mediaType "notes.txt" ≠ "image" ∧
    (Effect.indexDo "post" "7d9f3e6a"
        { User := "ann", Message := "hi", Location := { Lat := 47.6, Lon := -122.3 },
          Url := "https://storage.googleapis.com/around-probe/7d9f3e6a",
          Type_ := "unknown", Face := 0 } : Effect Rat Rat) ∈
      (handlerPost (sampleEnv allSucceed 0.95 [])
        (samplePost "47.6" [("image", ([1, 2], ⟨"notes.txt"⟩))])).2 :=
  ⟨by decide,
    (handlerPost_not_image (sampleEnv allSucceed 0.95 [])
      (samplePost "47.6" [("image", ([1, 2], ⟨"notes.txt"⟩))]) [1, 2] ⟨"notes.txt"⟩
      (by decide) rfl (by decide)).2.2 rfl rfl⟩

/-- Counterexample to C4: a create request without the file `image` is answered with
status 400 and no call is made, so nothing is indexed. -/
theorem handlerPost_without_media_rejected :
    (samplePost "47.6" []).Files.lookup "image" = none ∧
    (handlerPost (sampleEnv allSucceed 0.95 []) (samplePost "47.6" [])).1.statusCode = 400 ∧
    (handlerPost (sampleEnv allSucceed 0.95 []) (samplePost "47.6" [])).1.body =
      "Image is not available\n" ∧
    (handlerPost (sampleEnv allSucceed 0.95 []) (samplePost "47.6" [])).2 = [] :=
  ⟨rfl, rfl, rfl, rfl⟩

/-- C4, as amended. For a request that is not a pre-flight and has no file field `image`,
`handlerPost` answers with status 400 and the message `Image is not available`, and makes no
call at all: no blob write, no classifier call, no index write. -/
theorem handlerPost_without_media [Zero F32] (env : Env F64 F32) (r : Request)
    (hm : r.Method ≠ "OPTIONS") (hf : r.Files.lookup "image" = none) :
    (handlerPost env r).1.statusCode = 400 ∧
    (handlerPost env r).1.body = "Image is not available\n" ∧
    (handlerPost env r).2 = [] := by
  have h : handlerPost env r =
      (httpError (corsHeaders {} "Content-type") "Image is not available" StatusBadRequest,
        []) := by
    simp [handlerPost, hm, Request.FormFile, hf]
  rw [h]
  exact ⟨httpError_statusCode _ _ _ (corsHeaders_status _),
    httpError_body _ _ _ (corsHeaders_body _), rfl⟩

/-- Witness of C4 as amended: a create request without files, in a world whose store would
refuse the upload, is answered with status 400 before any call. -/
theorem handlerPost_without_media_witness :
    (samplePost "0" []).Method ≠ "OPTIONS" ∧
    (samplePost "0" []).Files.lookup "image" = none ∧
    (handlerPost (sampleEnv aclFails 0 []) (samplePost "0" [])).1.statusCode = 400 ∧
    (handlerPost (sampleEnv aclFails 0 []) (samplePost "0" [])).1.body =
      "Image is not available\n" ∧
    (handlerPost (sampleEnv aclFails 0 []) (samplePost "0" [])).2 = [] :=
  ⟨by decide, rfl,
    handlerPost_without_media (sampleEnv aclFails 0 []) (samplePost "0" []) (by decide) rfl⟩

/-- C5. For a request that is not a pre-flight and carries the file `image`, when
`saveToGCS` succeeds, `annotate` succeeds if the category is `image`, and `saveToES`
succeeds: the calls made are the six of `saveToGCS` under the generated id, then `annotate`
on `gs://around-probe/<id>` exactly when the category is `image`, then the client creation and
the index write of `saveToES` on index `post` under the same id; the response is a success;
there is exactly one blob write and exactly one index write; and the indexed `Post` has the
user name of the session, the message and the parsed location of the request, the URL
returned by the store, the category from the table, and as `Face` the score of the classifier
when the category is `image` (0 otherwise). -/
theorem handlerPost_success [Zero F32] (env : Env F64 F32) (r : Request)
    (file : List UInt8) (header : FileHeader) (hm : r.Method ≠ "OPTIONS")
    (hf : r.FormFile "image" = .ok (file, header)) :
    let id := env.uuidNew []
    let uri := "gs://" ++ BUCKET_NAME ++ "/" ++ id
    let calls : Trace F64 F32 := saveToGCS.calls file id
    let image := handlerPost.mediaType header.Filename = "image"
    let tr2 := calls ++ if image then [Effect.annotate uri] else []
    let p : Post F64 F32 :=
      { User := r.username, Message := r.FormValue "message",
        Location :=
          { Lat := (env.ParseFloat (r.FormValue "lat")).1,
            Lon := (env.ParseFloat (r.FormValue "lon")).1 },
        Url := (saveToGCS env [] file id).1.1,
        Type_ := handlerPost.mediaType header.Filename,
        Face := if image then env.score calls uri else 0 }
    (saveToGCS env [] file id).1.2 = none →
    (image → env.err (saveToGCS env [] file id).2 (.annotate uri) = none) →
    (saveToES env tr2 p POST_INDEX id).1 = none →
    handlerPost env r =
      (corsHeaders {} "Content-type",
        tr2 ++ [.elasticNewClient ES_URL, .indexDo "post" id p]) ∧
    (handlerPost env r).1.statusCode = 200 ∧
    (handlerPost env r).2.filter Effect.isBlobWrite = [.writerCopy "around-probe" id file] ∧
    (handlerPost env r).2.filter Effect.isIndexWrite = [.indexDo "post" id p] := by
  intro id uri calls image tr2 p hs ha he
  have hall := (saveToGCS_ok_iff env [] file id).1 hs
  have hstore : saveToGCS env [] file id =
      ((env.mediaLink (calls.take 5) BUCKET_NAME id, none), calls) := by
    rcases saveToGCS_spec env [] file id with ⟨k, err, hk, _, hans, _⟩ | ⟨_, heq⟩
    · rw [hall k hk] at hans; simp at hans
    · simpa using heq
  have hp : p = handlerPost.post env r header.Filename
      (env.mediaLink (calls.take 5) BUCKET_NAME id)
      (if image then env.score calls uri else 0) := by
    simp only [p, hstore, handlerPost.post]
  have hES : env.err tr2 (.elasticNewClient ES_URL) = none ∧
      env.err (tr2 ++ [.elasticNewClient ES_URL]) (.indexDo POST_INDEX id p) = none := by
    rcases saveToES_spec env tr2 p POST_INDEX id with ⟨_, hne, _⟩ | ⟨_, _, hne, _⟩ | ⟨h7, h8, _⟩
    · exact absurd he hne
    · exact absurd he hne
    · exact ⟨h7, h8⟩
  have hrun := handlerPost_run env r file header hm hf
  simp only at hrun
  have hmain : handlerPost env r =
      (corsHeaders {} "Content-type",
        tr2 ++ [.elasticNewClient ES_URL, .indexDo "post" id p]) := by
    rcases hrun with ⟨k, err, hk, _, hans, _⟩ | ⟨_, himg, ⟨err, herr⟩, _⟩ |
      ⟨_, _, ⟨⟨err, h7⟩, _⟩ | ⟨_, ⟨err, h8⟩, _⟩ | ⟨_, _, heq⟩⟩
    · rw [hall k hk] at hans; simp at hans
    · have := ha himg
      rw [hstore] at this
      rw [this] at herr; simp at herr
    · rw [hES.1] at h7; simp at h7
    · rw [← hp, hES.2] at h8; simp at h8
    · rw [heq, ← hp]; rfl
  refine ⟨hmain, ?_, ?_, ?_⟩
  · rw [hmain]; rfl
  · rw [hmain]
    by_cases himg : image <;>
      simp [tr2, calls, himg, saveToGCS.calls, Effect.isBlobWrite, BUCKET_NAME]
  · rw [hmain]
    by_cases himg : image <;>
      simp [tr2, calls, himg, saveToGCS.calls, Effect.isIndexWrite]

/-- Witness of C5: `cat.png` at `lat=47.6`, `lon=-122.3` with message `hi` and classifier
score `0.95` is stored, classified and indexed with `Type = image` and `Face = 0.95`. -/
theorem handlerPost_success_witness :
    (saveToGCS (sampleEnv allSucceed 0.95 []) [] [1, 2] "7d9f3e6a").1.2 = none ∧
    handlerPost (sampleEnv allSucceed 0.95 [])
        (samplePost "47.6" [("image", ([1, 2], ⟨"cat.png"⟩))]) =
      (corsHeaders {} "Content-type",
        [.storageNewClient, .bucketAttrs "around-probe",
          .writerCopy "around-probe" "7d9f3e6a" [1, 2],
          .writerClose "around-probe" "7d9f3e6a",
          .aclSet "around-probe" "7d9f3e6a" "allUsers" "READER",
          .objectAttrs "around-probe" "7d9f3e6a",
          .annotate "gs://around-probe/7d9f3e6a",
          .elasticNewClient "http://10.128.0.2:9200",
          .indexDo "post" "7d9f3e6a"
            { User := "ann", Message := "hi", Location := { Lat := 47.6, Lon := -122.3 },
              Url := "https://storage.googleapis.com/around-probe/7d9f3e6a",
              Type_ := "image", Face := 0.95 }]) :=
  ⟨by rfl,
    ((handlerPost_success (sampleEnv allSucceed 0.95 [])
      (samplePost "47.6" [("image", ([1, 2], ⟨"cat.png"⟩))]) [1, 2] ⟨"cat.png"⟩
      (by decide) rfl) (by rfl) (fun _ => by rfl) (by rfl)).1⟩

/-- C6. `saveToGCS` returns a `nil` error only when each of its six calls (client creation,
bucket lookup, copy, writer close, making the object public, reading the attributes)
succeeded, and then it returns the media link of the attributes after all six calls; when the
`k`-th call is the first to fail, it returns the empty string with that error, and the calls
made are exactly the first `k + 1`: no call after the failing one. -/
theorem saveToGCS_all_or_nothing (env : Env F64 F32) (tr : Trace F64 F32) (r : List UInt8)
    (objectName : String) :
    ((saveToGCS env tr r objectName).1.2 = none →
      (∀ k, k < 6 → saveToGCS.answer env tr r objectName k = none) ∧
      saveToGCS env tr r objectName =
        ((env.mediaLink (tr ++ (saveToGCS.calls r objectName).take 5) BUCKET_NAME objectName,
            none), tr ++ saveToGCS.calls r objectName)) ∧
    (∀ k err, k < 6 → (∀ j, j < k → saveToGCS.answer env tr r objectName j = none) →
      saveToGCS.answer env tr r objectName k = some err →
      saveToGCS env tr r objectName =
        (("", some err), tr ++ (saveToGCS.calls r objectName).take (k + 1))) := by
  rcases saveToGCS_spec env tr r objectName with ⟨k, err, hk, hprev, hans, heq⟩ | ⟨hall, heq⟩
  · constructor
    · intro h; rw [heq] at h; simp at h
    · intro k' err' hk' hprev' hans'
      rcases Nat.lt_trichotomy k k' with h | h | h
      · rw [hprev' k h] at hans; simp at hans
      · subst h; rw [hans] at hans'; cases hans'; exact heq
      · rw [hprev k' h] at hans'; simp at hans'
  · constructor
    · intro _; exact ⟨hall, heq⟩
    · intro k' err' hk' _ hans'
      rw [hall k' hk'] at hans'; simp at hans'

/-- Witness of C6: with a store whose `ACL().Set` is refused, the first four answers are
successes, the fifth is the error, and `saveToGCS` returns the empty string with that error
after exactly five calls; with a store that accepts everything it returns the media link
after the six calls. -/
theorem saveToGCS_all_or_nothing_witness :
    ((∀ j, j < 4 → saveToGCS.answer (sampleEnv aclFails 0 []) [] [1, 2] "7d9f3e6a" j = none) ∧
      saveToGCS.answer (sampleEnv aclFails 0 []) [] [1, 2] "7d9f3e6a" 4 =
        some "googleapi: Error 403: Forbidden" ∧
      saveToGCS (sampleEnv aclFails 0 []) [] [1, 2] "7d9f3e6a" =
        (("", some "googleapi: Error 403: Forbidden"),
          [.storageNewClient, .bucketAttrs "around-probe",
            .writerCopy "around-probe" "7d9f3e6a" [1, 2],
            .writerClose "around-probe" "7d9f3e6a",
            .aclSet "around-probe" "7d9f3e6a" "allUsers" "READER"])) ∧
    ((saveToGCS (sampleEnv allSucceed 0 []) [] [1, 2] "7d9f3e6a").1.2 = none ∧
      saveToGCS (sampleEnv allSucceed 0 []) [] [1, 2] "7d9f3e6a" =
        (("https://storage.googleapis.com/around-probe/7d9f3e6a", none),
          [.storageNewClient, .bucketAttrs "around-probe",
            .writerCopy "around-probe" "7d9f3e6a" [1, 2],
            .writerClose "around-probe" "7d9f3e6a",
            .aclSet "around-probe" "7d9f3e6a" "allUsers" "READER",
            .objectAttrs "around-probe" "7d9f3e6a"])) :=
  ⟨⟨by decide, by rfl,
      (saveToGCS_all_or_nothing (sampleEnv aclFails 0 []) [] [1, 2] "7d9f3e6a").2 4 _
        (by decide) (by decide) (by rfl)⟩,
    ⟨by rfl,
      ((saveToGCS_all_or_nothing (sampleEnv allSucceed 0 []) [] [1, 2] "7d9f3e6a").1
        (by rfl)).2⟩⟩

/-- C7. For a search request that is not a pre-flight, `handlerSearch` creates the
Elasticsearch client and, when that succeeds, runs one search on index `post` with the
geo-distance query on field `location` centred at the parsed `lat` and `lon` of the request,
whose distance is `200km` when `range` is omitted or empty and the value of `range` followed
by `km` otherwise. -/
theorem handlerSearch_query [Zero F64] [Zero F32] (env : Env F64 F32) (r : Request)
    (hm : r.Method ≠ "OPTIONS") :
    let distance :=
      match r.URLQuery.lookup "range" with
      | none => "200km"
      | some v => if v = "" then "200km" else v ++ "km"
    let query : Query F64 := .geoDistance
      { name := "location", distance := distance,
        lat := (env.ParseFloat (r.QueryGet "lat")).1,
        lon := (env.ParseFloat (r.QueryGet "lon")).1 }
    (handlerSearch env r).2 =
      .elasticNewClient "http://10.128.0.2:9200" ::
        (if env.err [] (.elasticNewClient "http://10.128.0.2:9200") = none then
          [.searchDo "post" query]
        else []) :=
  handlerSearch_run env r hm

/-- Witness of C7: `range=5` gives the distance `5km`, no `range` gives `200km`. -/
theorem handlerSearch_query_witness :
    (sampleGet [("lat", "47.6"), ("lon", "-122.3"), ("range", "5")]).Method ≠ "OPTIONS" ∧
    (handlerSearch (sampleEnv allSucceed 0 [])
        (sampleGet [("lat", "47.6"), ("lon", "-122.3"), ("range", "5")])).2 =
      [.elasticNewClient "http://10.128.0.2:9200",
        .searchDo "post" (.geoDistance
          { name := "location", distance := "5km", lat := 47.6, lon := -122.3 })] ∧
    (handlerSearch (sampleEnv allSucceed 0 [])
        (sampleGet [("lat", "47.6"), ("lon", "-122.3")])).2 =
      [.elasticNewClient "http://10.128.0.2:9200",
        .searchDo "post" (.geoDistance
          { name := "location", distance := "200km", lat := 47.6, lon := -122.3 })] :=
  ⟨by decide,
    handlerSearch_query (sampleEnv allSucceed 0 [])
      (sampleGet [("lat", "47.6"), ("lon", "-122.3"), ("range", "5")]) (by decide),
    handlerSearch_query (sampleEnv allSucceed 0 [])
      (sampleGet [("lat", "47.6"), ("lon", "-122.3")]) (by decide)⟩

/-- C8. For a cluster request that is not a pre-flight, whatever its parameters,
`handlerCluster` creates the Elasticsearch client and, when that succeeds, runs one search on
index `post` with the range query on the field named by `term` whose lower bound is `0.9`,
inclusive, and which has no upper bound; this query selects exactly the values `v` with
`0.9 ≤ v`, the value `0.9` among them. -/
theorem handlerCluster_query [Zero F64] [Zero F32] [OfScientific F64] [Preorder F64]
    (env : Env F64 F32) (r : Request) (hm : r.Method ≠ "OPTIONS") :
    let q : RangeQuery F64 :=
      { name := r.QueryGet "term", from_ := some 0.9, to_ := none,
        includeLower := true, includeUpper := true }
    (handlerCluster env r).2 =
      .elasticNewClient "http://10.128.0.2:9200" ::
        (if env.err [] (.elasticNewClient "http://10.128.0.2:9200") = none then
          [.searchDo "post" (.range q)]
        else []) ∧
    q.admits 0.9 ∧ (∀ v, q.admits v ↔ (0.9 : F64) ≤ v) := by
  intro q
  exact ⟨handlerCluster_run env r hm, by simp [RangeQuery.admits, q],
    fun v => by simp [RangeQuery.admits, q]⟩

/-- Witness of C8: the cluster search on `face`. -/
theorem handlerCluster_query_witness :
    (sampleGet [("term", "face")]).Method ≠ "OPTIONS" ∧
    (handlerCluster (sampleEnv allSucceed 0 []) (sampleGet [("term", "face")])).2 =
      [.elasticNewClient "http://10.128.0.2:9200",
        .searchDo "post" (.range
          { name := "face", from_ := some 0.9, to_ := none,
            includeLower := true, includeUpper := true })] :=
  ⟨by decide,
    (handlerCluster_query (sampleEnv allSucceed 0 []) (sampleGet [("term", "face")])
      (by decide)).1⟩

/-- C9. A search that succeeds without hits is answered, by `handlerSearch` and by
`handlerCluster`, with status 200 and the body `null`, which is not a JSON array. -/
theorem search_without_hits_body_is_null :
    (handlerSearch (sampleEnv allSucceed 0 [])
        (sampleGet [("lat", "47.6"), ("lon", "-122.3")])).1.statusCode = 200 ∧
    (handlerSearch (sampleEnv allSucceed 0 [])
        (sampleGet [("lat", "47.6"), ("lon", "-122.3")])).1.body = "null" ∧
    (handlerCluster (sampleEnv allSucceed 0 []) (sampleGet [("term", "face")])).1.statusCode
      = 200 ∧
    (handlerCluster (sampleEnv allSucceed 0 []) (sampleGet [("term", "face")])).1.body =
      "null" :=
  ⟨rfl, rfl, rfl, rfl⟩

/-- Counterexample to C10: with `lat=abc`, which the parser rejects, the create request is
answered with status 200 after the store, the classifier and the index were called, the
indexed post having latitude 0; and the search request is answered with status 200 after the
index was read with a query centred at latitude 0. -/
theorem unparsable_lat_is_accepted :
    (sampleParseFloat "abc").2 ≠ none ∧
    handlerPost (sampleEnv allSucceed 0.95 [])
        (samplePost "abc" [("image", ([1, 2], ⟨"cat.png"⟩))]) =
      (corsHeaders {} "Content-type",
        [.storageNewClient, .bucketAttrs "around-probe",
          .writerCopy "around-probe" "7d9f3e6a" [1, 2],
          .writerClose "around-probe" "7d9f3e6a",
          .aclSet "around-probe" "7d9f3e6a" "allUsers" "READER",
          .objectAttrs "around-probe" "7d9f3e6a",
          .annotate "gs://around-probe/7d9f3e6a",
          .elasticNewClient "http://10.128.0.2:9200",
          .indexDo "post" "7d9f3e6a"
            { User := "ann", Message := "hi", Location := { Lat := 0, Lon := -122.3 },
              Url := "https://storage.googleapis.com/around-probe/7d9f3e6a",
              Type_ := "image", Face := 0.95 }]) ∧
    (handlerPost (sampleEnv allSucceed 0.95 [])
        (samplePost "abc" [("image", ([1, 2], ⟨"cat.png"⟩))])).1.statusCode = 200 ∧
    (handlerSearch (sampleEnv allSucceed 0 [])
        (sampleGet [("lat", "abc"), ("lon", "-122.3")])).1.statusCode = 200 ∧
    (handlerSearch (sampleEnv allSucceed 0 [])
        (sampleGet [("lat", "abc"), ("lon", "-122.3")])).2 =
      [.elasticNewClient "http://10.128.0.2:9200",
        .searchDo "post" (.geoDistance
          { name := "location", distance := "200km", lat := 0, lon := -122.3 })] :=
  ⟨by decide, rfl, rfl, rfl, rfl⟩

/-- C10, as amended. A `lat` or `lon` text that does not parse causes no validation error:
both handlers discard the error that `strconv.ParseFloat` returns and go on with the value
returned with it. The handlers behave exactly as in the world in which the parser reports no
error; a create request with a file `image` gets status 200 or 500, makes calls, and every
`Post` it indexes has the returned values as location; a search request gets status 200 or
500, makes calls, and every geo-distance query it runs is centred at the returned values. -/
theorem coordinate_parse_error_discarded [Zero F64] [Zero F32] (env : Env F64 F32)
    (r : Request) (hm : r.Method ≠ "OPTIONS") :
    (handlerPost env r = handlerPost env.withoutParseErrors r ∧
      handlerSearch env r = handlerSearch env.withoutParseErrors r) ∧
    (∀ file header, r.FormFile "image" = .ok (file, header) →
      ((handlerPost env r).1.statusCode = 200 ∨ (handlerPost env r).1.statusCode = 500) ∧
      (handlerPost env r).2 ≠ [] ∧
      ∀ index id body, Effect.indexDo index id body ∈ (handlerPost env r).2 →
        body.Location.Lat = (env.ParseFloat (r.FormValue "lat")).1 ∧
        body.Location.Lon = (env.ParseFloat (r.FormValue "lon")).1) ∧
    (((handlerSearch env r).1.statusCode = 200 ∨ (handlerSearch env r).1.statusCode = 500) ∧
      (handlerSearch env r).2 ≠ [] ∧
      ∀ index q, Effect.searchDo index (.geoDistance q) ∈ (handlerSearch env r).2 →
        q.lat = (env.ParseFloat (r.QueryGet "lat")).1 ∧
        q.lon = (env.ParseFloat (r.QueryGet "lon")).1) := by
  refine ⟨⟨rfl, rfl⟩, ?_, ?_⟩
  · intro file header hf
    obtain ⟨hst, hne⟩ := handlerPost_status env r file header hm hf
    refine ⟨hst, hne, ?_⟩
    intro index id body hmem
    obtain ⟨_, _, url, face, hb⟩ := handlerPost_indexed env r file header hf index id body hmem
    rw [hb]
    exact ⟨rfl, rfl⟩
  · have htr := handlerSearch_run env r hm
    simp only at htr
    refine ⟨handlerSearch_status env r, by rw [htr]; simp, ?_⟩
    intro index q hmem
    rw [htr] at hmem
    by_cases h7 : env.err [] (Effect.elasticNewClient ES_URL) = none
    · simp only [h7, if_true, List.mem_cons, List.mem_singleton, List.not_mem_nil, or_false,
        reduceCtorEq, false_or, Effect.searchDo.injEq, Query.geoDistance.injEq] at hmem
      rw [hmem.2]
      exact ⟨rfl, rfl⟩
    · simp [h7] at hmem

/-- Witness of C10 as amended, on the requests with `lat=abc`. -/
theorem coordinate_parse_error_discarded_witness :
    (samplePost "abc" [("image", ([1, 2], ⟨"cat.png"⟩))]).Method ≠ "OPTIONS" ∧
    (samplePost "abc" [("image", ([1, 2], ⟨"cat.png"⟩))]).FormFile "image" =
      .ok ([1, 2], ⟨"cat.png"⟩) ∧
    ((handlerPost (sampleEnv allSucceed 0.95 [])
        (samplePost "abc" [("image", ([1, 2], ⟨"cat.png"⟩))])).1.statusCode = 200 ∨
      (handlerPost (sampleEnv allSucceed 0.95 [])
        (samplePost "abc" [("image", ([1, 2], ⟨"cat.png"⟩))])).1.statusCode = 500) ∧
    (handlerPost (sampleEnv allSucceed 0.95 [])
        (samplePost "abc" [("image", ([1, 2], ⟨"cat.png"⟩))])).2 ≠ [] :=
  ⟨by decide, rfl,
    ((coordinate_parse_error_discarded (sampleEnv allSucceed 0.95 [])
      (samplePost "abc" [("image", ([1, 2], ⟨"cat.png"⟩))]) (by decide)).2.1
      [1, 2] ⟨"cat.png"⟩ rfl).1,
    ((coordinate_parse_error_discarded (sampleEnv allSucceed 0.95 [])
      (samplePost "abc" [("image", ([1, 2], ⟨"cat.png"⟩))]) (by decide)).2.1
      [1, 2] ⟨"cat.png"⟩ rfl).2.1⟩

end Around
